import Mathlib

/-!
Verification of `generate_embedding.py` (repository TaskSphere).

The script is four executable lines:

```
model = SentenceTransformer('all-MiniLM-L6-v2')   -- line 5
text = sys.argv[1]                                -- line 6
embedding = model.encode([text])[0]               -- line 7
print(json.dumps(embedding.tolist()))             -- line 8
```

We embed it as a function from an environment (the process arguments and
the behaviour of the external `SentenceTransformer` collaborator) to a run
result recording the event trace, everything written to standard output,
the exit status and the uncaught error, if any.
-/

/-- A Python float value: either a finite number (modelled exactly as a
rational) or one of the non-finite IEEE values `nan`, `inf`, `-inf`. -/
inductive PyFloat where
  | finite (q : ℚ)
  | nan
  | inf
  | neginf
deriving DecidableEq, Repr

/-- Whether a Python float is finite. -/
def PyFloat.isFinite : PyFloat → Bool
  | .finite _ => true
  | _ => false

/-- The numeric value of a finite Python float (0 on the non-finite values,
which every use below guards against). -/
def PyFloat.val : PyFloat → ℚ
  | .finite q => q
  | _ => 0

/-- The decimal digit character for `d < 10`. -/
def digitChar (d : Nat) : Char := Char.ofNat (48 + d)

/-- The decimal digit characters of a natural number, most significant
first. -/
def natChars (n : Nat) : List Char :=
  if _h : n < 10 then [digitChar n]
  else natChars (n / 10) ++ [digitChar (n % 10)]
termination_by n
decreasing_by exact Nat.div_lt_self (by omega) (by omega)

/-- The character rendering of a rational number: optional sign, numerator
digits, and denominator when it is not 1. -/
def ratChars (q : ℚ) : List Char :=
  (if q.num < 0 then ['-'] else []) ++ natChars q.num.natAbs ++
    (if q.den = 1 then [] else '/' :: natChars q.den)

/-- Interleave the JSON item separator `", "` (the default separator used
by `json.dumps`) between rendered items. -/
def sepChars : List (List Char) → List Char
  | [] => []
  | [x] => x
  | x :: xs => x ++ [',', ' '] ++ sepChars xs

/-- The characters of the JSON array rendering of a list of numbers. -/
def arrChars (v : List ℚ) : List Char :=
  '[' :: (sepChars (v.map ratChars) ++ [']'])

/-- Modelled from the spec: `json.dumps` applied to a list of Python
floats (the script calls it on `embedding.tolist()`, line 8).  The spec
lists "serialization failure (non-finite values)" as a failure mode, so
the model fails exactly on a non-finite entry; on an all-finite list it
returns the JSON array text of the numbers. -/
def json_dumps (v : List PyFloat) : Except String String :=
  if v.all PyFloat.isFinite then
    .ok (String.mk (arrChars (v.map PyFloat.val)))
  else
    .error "ValueError: Out of range float values are not JSON compliant"

/-- Observable events of one run of the script, in program order. -/
inductive Event where
  | loadModel (name : String)
  | readArg (i : Nat)
  | encodeCall (texts : List String)
  | stdoutWrite (text : String)
deriving DecidableEq, Repr

/-- The external sentence-transformer model, opaque except for its one
operation: `encode` maps a list of texts to a list of embedding vectors,
or fails. -/
structure SentenceTransformer where
  encode : List String → Except String (List (List PyFloat))

/-- The environment of one process invocation: the argument vector
(`argv[0]?` is the script name) and the behaviour of the
`SentenceTransformer` constructor, which loads a model by identifier and
may fail (network or cache error). -/
structure Env where
  argv : List String
  load : String → Except String SentenceTransformer

/-- The result of one run: the trace of events, the full text written to
standard output, whether the process exited with status 0, and the
uncaught error when it did not. -/
structure RunResult where
  trace : List Event
  stdout : String
  exitOk : Bool
  error : Option String
deriving DecidableEq, Repr

/-- The hardcoded model identifier of line 5. -/
def MODEL_NAME : String := "all-MiniLM-L6-v2"

/-- The Python error raised by `sys.argv[1]` when no argument is given. -/
def argvIndexError : String := "IndexError: list index out of range"

/-- The error raised by `[0]` on an empty `encode` result (line 7). -/
def encodeIndexError : String :=
  "IndexError: index 0 is out of bounds for axis 0 with size 0"

/-- Shallow embedding of `generate_embedding.py`.  Each nested match is
one source line, in source order: line 5 loads the model, line 6 reads
`sys.argv[1]`, line 7 encodes the one-element list `[text]` and takes
element 0, line 8 serializes and prints (with the trailing newline that
`print` appends).  Any failure stops the run with an uncaught error, a
non-zero exit status and nothing on standard output. -/
def runScript (env : Env) : RunResult :=
  match env.load MODEL_NAME with
  | .error e => ⟨[.loadModel MODEL_NAME], "", false, some e⟩
  | .ok model =>
    match env.argv[1]? with
    | none => ⟨[.loadModel MODEL_NAME, .readArg 1], "", false, some argvIndexError⟩
    | some text =>
      match model.encode [text] with
      | .error e =>
          ⟨[.loadModel MODEL_NAME, .readArg 1, .encodeCall [text]], "", false, some e⟩
      | .ok vecs =>
        match vecs[0]? with
        | none =>
            ⟨[.loadModel MODEL_NAME, .readArg 1, .encodeCall [text]], "", false,
              some encodeIndexError⟩
        | some embedding =>
          match json_dumps embedding with
          | .error e =>
              ⟨[.loadModel MODEL_NAME, .readArg 1, .encodeCall [text]], "", false, some e⟩
          | .ok s =>
              ⟨[.loadModel MODEL_NAME, .readArg 1, .encodeCall [text],
                  .stdoutWrite (s ++ "\n")],
                s ++ "\n", true, none⟩

/-- A string parses as a JSON array of exactly `n` numbers: it is the
JSON-array rendering of some length-`n` vector of numbers. -/
def ParsesToNumArray (s : String) (n : Nat) : Prop :=
  ∃ v : List ℚ, v.length = n ∧ s = String.mk (arrChars v)

/-- `e₁` occurs strictly before `e₂` in the trace `tr`. -/
def occursBefore (e₁ e₂ : Event) (tr : List Event) : Prop :=
  ∃ i j : Nat, i < j ∧ tr[i]? = some e₁ ∧ tr[j]? = some e₂

/-- A model whose `encode` always returns one 384-dimensional zero
vector, used to exercise the theorems on concrete inputs. -/
def zeroModel384 : SentenceTransformer :=
  ⟨fun _ => .ok [List.replicate 384 (PyFloat.finite 0)]⟩

/-- A model whose `encode` always returns the single vector `[1]`. -/
def tinyModel : SentenceTransformer := ⟨fun _ => .ok [[PyFloat.finite 1]]⟩

/-- A model whose `encode` returns a vector containing a NaN. -/
def nanModel : SentenceTransformer := ⟨fun _ => .ok [[PyFloat.nan]]⟩

/-- A loader that always succeeds with `tinyModel`. -/
def tinyLoad : String → Except String SentenceTransformer :=
  fun _ => .ok tinyModel

/-- A run with input "hello world" against `zeroModel384`. -/
def c1Env : Env := ⟨["generate_embedding.py", "hello world"], fun _ => .ok zeroModel384⟩

/-- A run with input "hi" against `tinyModel`. -/
def c2Env : Env := ⟨["generate_embedding.py", "hi"], tinyLoad⟩

/-- A fully successful concrete run, used to exhibit the event order. -/
def c3Env : Env := ⟨["generate_embedding.py", "hi"], tinyLoad⟩

/-- A run with no positional argument. -/
def c4Env : Env := ⟨["generate_embedding.py"], tinyLoad⟩

/-- A run whose embedding vector contains a NaN. -/
def c6Env : Env := ⟨["generate_embedding.py", "hi"], fun _ => .ok nanModel⟩

/-- Two runs that agree on the first positional argument (and on the
model) but differ in the script-name slot of `argv`. -/
def c7EnvA : Env := ⟨["generate_embedding.py", "same text"], tinyLoad⟩

/-- See `c7EnvA`. -/
def c7EnvB : Env := ⟨["./generate_embedding.py", "same text"], tinyLoad⟩

/-- Two runs that agree on the first positional argument but one of which
receives extra trailing arguments. -/
def c8EnvA : Env := ⟨["generate_embedding.py", "hello"], tinyLoad⟩

/-- See `c8EnvA`. -/
def c8EnvB : Env :=
  ⟨["generate_embedding.py", "hello", "--verbose", "ignored"], tinyLoad⟩

/-- A run with the empty string as the positional argument. -/
def c9Env : Env := ⟨["generate_embedding.py", ""], fun _ => .ok zeroModel384⟩

/-- A run used to exercise the in-bounds index of line 7. -/
def c10Env : Env := ⟨["generate_embedding.py", "hi"], tinyLoad⟩

/-- The runs in which every step of the script succeeded, with the JSON
line and a trailing newline as the whole standard output. -/
def SuccessRun (env : Env) : Prop :=
  ∃ (m : SentenceTransformer) (t : String) (vecs : List (List PyFloat))
    (emb : List PyFloat) (s : String),
    env.load MODEL_NAME = Except.ok m ∧ env.argv[1]? = some t ∧
    m.encode [t] = Except.ok vecs ∧ vecs[0]? = some emb ∧
    json_dumps emb = Except.ok s ∧
    (runScript env).stdout = s ++ "\n" ∧ (runScript env).exitOk = true ∧
    (runScript env).error = none

/-! ### Helper lemmas -/

theorem digitChar_ne_newline (d : Nat) (hd : d < 10) : digitChar d ≠ '\n' := by
  interval_cases d <;> decide

theorem natChars_ne_newline (n : Nat) : ∀ c ∈ natChars n, c ≠ '\n' := by
  induction n using Nat.strong_induction_on with
  | _ n ih =>
    intro c hc
    unfold natChars at hc
    split at hc
    · next h =>
      rw [List.mem_singleton] at hc
      subst hc
      exact digitChar_ne_newline n h
    · next h =>
      rcases List.mem_append.mp hc with hc | hc
      · exact ih (n / 10) (Nat.div_lt_self (by omega) (by omega)) c hc
      · rw [List.mem_singleton] at hc
        subst hc
        exact digitChar_ne_newline (n % 10) (Nat.mod_lt n (by omega))

theorem ratChars_ne_newline (q : ℚ) : ∀ c ∈ ratChars q, c ≠ '\n' := by
  intro c hc
  unfold ratChars at hc
  rcases List.mem_append.mp hc with hc | hc
  · rcases List.mem_append.mp hc with hc | hc
    · split at hc
      · rw [List.mem_singleton] at hc
        subst hc
        decide
      · simp at hc
    · exact natChars_ne_newline _ c hc
  · split at hc
    · simp at hc
    · rcases List.mem_cons.mp hc with hc | hc
      · subst hc
        decide
      · exact natChars_ne_newline _ c hc

theorem sepChars_ne_newline (L : List (List Char))
    (hL : ∀ x ∈ L, ∀ c ∈ x, c ≠ '\n') : ∀ c ∈ sepChars L, c ≠ '\n' := by
  induction L with
  | nil => intro c hc; simp [sepChars] at hc
  | cons x xs ih =>
    cases xs with
    | nil =>
      intro c hc
      rw [show sepChars [x] = x from rfl] at hc
      exact hL x (by simp) c hc
    | cons y ys =>
      intro c hc
      rw [show sepChars (x :: y :: ys) = x ++ [',', ' '] ++ sepChars (y :: ys)
        from rfl] at hc
      rcases List.mem_append.mp hc with hc | hc
      · rcases List.mem_append.mp hc with hc | hc
        · exact hL x (by simp) c hc
        · rcases List.mem_cons.mp hc with hc | hc
          · subst hc; decide
          · rw [List.mem_singleton] at hc; subst hc; decide
      · exact ih (fun z hz => hL z (List.mem_cons_of_mem x hz)) c hc

theorem arrChars_ne_newline (v : List ℚ) : ∀ c ∈ arrChars v, c ≠ '\n' := by
  intro c hc
  unfold arrChars at hc
  rcases List.mem_cons.mp hc with hc | hc
  · subst hc; decide
  · rcases List.mem_append.mp hc with hc | hc
    · refine sepChars_ne_newline (v.map ratChars) ?_ c hc
      intro x hx
      rcases List.mem_map.mp hx with ⟨q, _, rfl⟩
      exact ratChars_ne_newline q
    · rw [List.mem_singleton] at hc; subst hc; decide

theorem runScript_success (env : Env) (m : SentenceTransformer) (t : String)
    (vecs : List (List PyFloat)) (emb : List PyFloat)
    (hload : env.load MODEL_NAME = Except.ok m)
    (harg : env.argv[1]? = some t)
    (henc : m.encode [t] = Except.ok vecs)
    (hget : vecs[0]? = some emb)
    (hfin : emb.all PyFloat.isFinite = true) :
    runScript env =
      ⟨[.loadModel MODEL_NAME, .readArg 1, .encodeCall [t],
          .stdoutWrite (String.mk (arrChars (emb.map PyFloat.val)) ++ "\n")],
        String.mk (arrChars (emb.map PyFloat.val)) ++ "\n", true, none⟩ := by
  unfold runScript
  simp only [hload, harg, henc, hget]
  simp [json_dumps, hfin]

theorem runScript_congr (e₁ e₂ : Env) (hm : e₁.load = e₂.load)
    (ha : e₁.argv[1]? = e₂.argv[1]?) : runScript e₁ = runScript e₂ := by
  unfold runScript
  rw [hm, ha]

theorem runScript_trace_shape (env : Env) :
    ∃ rest, (runScript env).trace = Event.loadModel MODEL_NAME :: rest ∧
      ∀ name, Event.loadModel name ∉ rest := by
  rcases hl : env.load MODEL_NAME with e | model
  · exact ⟨[], by simp [runScript, hl], by simp⟩
  · rcases ha : env.argv[1]? with _ | t
    · exact ⟨[Event.readArg 1], by simp [runScript, hl, ha], by simp⟩
    · rcases he : model.encode [t] with e | vecs
      · exact ⟨[Event.readArg 1, Event.encodeCall [t]],
          by simp [runScript, hl, ha, he], by simp⟩
      · rcases hg : vecs[0]? with _ | emb
        · exact ⟨[Event.readArg 1, Event.encodeCall [t]],
            by simp [runScript, hl, ha, he, hg], by simp⟩
        · rcases hd : json_dumps emb with e | s
          · exact ⟨[Event.readArg 1, Event.encodeCall [t]],
              by simp [runScript, hl, ha, he, hg, hd], by simp⟩
          · exact ⟨[Event.readArg 1, Event.encodeCall [t],
              Event.stdoutWrite (s ++ "\n")],
              by simp [runScript, hl, ha, he, hg, hd], by simp⟩

theorem not_readArg_before_loadModel (env : Env) :
    ¬ occursBefore (Event.readArg 1) (Event.loadModel MODEL_NAME)
        (runScript env).trace := by
  rintro ⟨i, j, hij, hi, hj⟩
  obtain ⟨rest, htr, hrest⟩ := runScript_trace_shape env
  rw [htr] at hj
  cases j with
  | zero => omega
  | succ n =>
    rw [List.getElem?_cons_succ] at hj
    exact hrest MODEL_NAME (List.getElem?_mem hj)

/-! ### Claims -/

/-- C1: for every valid non-empty input string supplied as the first
positional argument, if the model load succeeds and `encode` succeeds
returning vectors of its fixed dimension 384 (with finite entries, so
that serialization succeeds), standard output is a single
newline-terminated line that is valid JSON parsing to an array of exactly
384 numbers. -/
theorem c1_output_single_line_json_384 (env : Env) (m : SentenceTransformer)
    (t : String) (emb : List PyFloat) (rest : List (List PyFloat))
    (hload : env.load MODEL_NAME = Except.ok m)
    (harg : env.argv[1]? = some t)
    (_hne : t ≠ "")
    (henc : m.encode [t] = Except.ok (emb :: rest))
    (hdim : emb.length = 384)
    (hfin : emb.all PyFloat.isFinite = true) :
    ∃ line : String,
      (runScript env).stdout = line ++ "\n" ∧
      (∀ c ∈ line.data, c ≠ '\n') ∧
      ParsesToNumArray line 384 := by
  refine ⟨String.mk (arrChars (emb.map PyFloat.val)), ?_, ?_, ?_⟩
  · rw [runScript_success env m t (emb :: rest) emb hload harg henc (by simp) hfin]
  · intro c hc
    exact arrChars_ne_newline _ c hc
  · exact ⟨emb.map PyFloat.val, by rw [List.length_map, hdim], rfl⟩

set_option maxRecDepth 4000 in
/-- C1 witness: the theorem applied to a concrete run on "hello world"
with a model that returns a 384-dimensional zero vector. -/
theorem c1_witness :
    ∃ line : String,
      (runScript c1Env).stdout = line ++ "\n" ∧
      (∀ c ∈ line.data, c ≠ '\n') ∧
      ParsesToNumArray line 384 :=
  c1_output_single_line_json_384 c1Env zeroModel384 "hello world"
    (List.replicate 384 (PyFloat.finite 0)) [] rfl rfl (by decide) rfl
    (by simp) (by rfl)

/-- C2: for every run with at least one positional argument in which the
model load (under the hardcoded identifier "all-MiniLM-L6-v2") and encode
succeed, and the first resulting vector is all finite so that
serialization succeeds, the text written to standard output is exactly
the JSON serialization of that first vector followed by one newline, and
nothing else. -/
theorem c2_stdout_is_exactly_dumps (env : Env) (m : SentenceTransformer)
    (t : String) (vecs : List (List PyFloat)) (emb : List PyFloat)
    (hload : env.load "all-MiniLM-L6-v2" = Except.ok m)
    (harg : env.argv[1]? = some t)
    (henc : m.encode [t] = Except.ok vecs)
    (hget : vecs[0]? = some emb)
    (hfin : emb.all PyFloat.isFinite = true) :
    ∃ s : String,
      json_dumps emb = Except.ok s ∧ (runScript env).stdout = s ++ "\n" := by
  refine ⟨String.mk (arrChars (emb.map PyFloat.val)), ?_, ?_⟩
  · simp [json_dumps, hfin]
  · rw [runScript_success env m t vecs emb hload harg henc hget hfin]

/-- C2 witness: the theorem applied to a concrete run on "hi" with a
model returning the single vector `[1]`. -/
theorem c2_witness :
    ∃ s : String,
      json_dumps [PyFloat.finite 1] = Except.ok s ∧
      (runScript c2Env).stdout = s ++ "\n" :=
  c2_stdout_is_exactly_dumps c2Env tinyModel "hi" [[PyFloat.finite 1]]
    [PyFloat.finite 1] rfl rfl rfl rfl rfl

/-- C3 counterexample: on a concrete fully successful run, the model-load
event occurs strictly before the argument-read event in the trace.  This
refutes the claim that the argument is read before the model is loaded:
in the source, line 5 constructs the `SentenceTransformer` and only line
6 reads `sys.argv[1]`. -/
theorem c3_counterexample :
    occursBefore (Event.loadModel MODEL_NAME) (Event.readArg 1)
      (runScript c3Env).trace :=
  ⟨0, 1, by omega, rfl, rfl⟩

/-- C3 (amended): the steps occur in the order: the model is loaded
first, then the argument is read, then inference runs, then the
serialized line is written; on a run where every step succeeds the trace
is exactly these four events in that order, and in no execution is the
argument read before the model load. -/
theorem c3_pipeline_order (env : Env) (m : SentenceTransformer) (t : String)
    (vecs : List (List PyFloat)) (emb : List PyFloat)
    (hload : env.load MODEL_NAME = Except.ok m)
    (harg : env.argv[1]? = some t)
    (henc : m.encode [t] = Except.ok vecs)
    (hget : vecs[0]? = some emb)
    (hfin : emb.all PyFloat.isFinite = true) :
    (∃ s : String,
      (runScript env).trace =
        [Event.loadModel MODEL_NAME, Event.readArg 1, Event.encodeCall [t],
          Event.stdoutWrite (s ++ "\n")]) ∧
    ∀ env' : Env,
      ¬ occursBefore (Event.readArg 1) (Event.loadModel MODEL_NAME)
          (runScript env').trace := by
  constructor
  · refine ⟨String.mk (arrChars (emb.map PyFloat.val)), ?_⟩
    rw [runScript_success env m t vecs emb hload harg henc hget hfin]
  · exact not_readArg_before_loadModel

/-- C3 (amended) witness: the amended theorem applied to a concrete fully
successful run. -/
theorem c3_witness :
    (∃ s : String,
      (runScript c3Env).trace =
        [Event.loadModel MODEL_NAME, Event.readArg 1, Event.encodeCall ["hi"],
          Event.stdoutWrite (s ++ "\n")]) ∧
    ∀ env' : Env,
      ¬ occursBefore (Event.readArg 1) (Event.loadModel MODEL_NAME)
          (runScript env').trace :=
  c3_pipeline_order c3Env tinyModel "hi" [[PyFloat.finite 1]]
    [PyFloat.finite 1] rfl rfl rfl rfl rfl

/-- C4: with no positional argument supplied, the run writes nothing to
standard output and exits with a non-zero status; whenever the model load
itself succeeded, the uncaught error is exactly the IndexError of the
`sys.argv[1]` access. -/
theorem c4_missing_argument_crash (env : Env) (h : env.argv.length ≤ 1) :
    (runScript env).stdout = "" ∧ (runScript env).exitOk = false ∧
      ∀ m : SentenceTransformer, env.load MODEL_NAME = Except.ok m →
        (runScript env).error = some argvIndexError := by
  have harg : env.argv[1]? = none := List.getElem?_eq_none h
  rcases hl : env.load MODEL_NAME with e | model
  · refine ⟨by simp [runScript, hl], by simp [runScript, hl], ?_⟩
    intro m hm
    cases hm
  · exact ⟨by simp [runScript, hl, harg], by simp [runScript, hl, harg],
      fun m _ => by simp [runScript, hl, harg]⟩

/-- C4 witness: the theorem applied to a concrete run whose `argv` holds
only the script name. -/
theorem c4_witness :
    (runScript c4Env).stdout = "" ∧ (runScript c4Env).exitOk = false ∧
      ∀ m : SentenceTransformer, c4Env.load MODEL_NAME = Except.ok m →
        (runScript c4Env).error = some argvIndexError :=
  c4_missing_argument_crash c4Env (by decide)

/-- C5: output is all-or-nothing: every run either fails — non-zero exit
status, an uncaught error and an empty standard output — or every step
(model load, argument read, encode, indexing, serialization) succeeded
and standard output is exactly the JSON line with its trailing
newline. -/
theorem c5_all_or_nothing (env : Env) :
    ((runScript env).exitOk = false ∧ (runScript env).stdout = "" ∧
        (runScript env).error.isSome = true) ∨ SuccessRun env := by
  rcases hl : env.load MODEL_NAME with e | m
  · left
    refine ⟨?_, ?_, ?_⟩ <;> simp [runScript, hl]
  · rcases ha : env.argv[1]? with _ | t
    · left
      refine ⟨?_, ?_, ?_⟩ <;> simp [runScript, hl, ha]
    · rcases he : m.encode [t] with e | vecs
      · left
        refine ⟨?_, ?_, ?_⟩ <;> simp [runScript, hl, ha, he]
      · rcases hg : vecs[0]? with _ | emb
        · left
          refine ⟨?_, ?_, ?_⟩ <;> simp [runScript, hl, ha, he, hg]
        · rcases hd : json_dumps emb with e | s
          · left
            refine ⟨?_, ?_, ?_⟩ <;> simp [runScript, hl, ha, he, hg, hd]
          · right
            refine ⟨m, t, vecs, emb, s, hl, ha, he, hg, hd, ?_, ?_, ?_⟩ <;>
              simp [runScript, hl, ha, he, hg, hd]

/-- C6: if the first vector returned by `encode` contains a non-finite
value, the serialization step fails (`json_dumps`, modelled from the
spec, rejects non-finite values) and the failure surfaces as an uncaught
error with a non-zero exit status and nothing on standard output. -/
theorem c6_nonfinite_serialization_failure (env : Env)
    (m : SentenceTransformer) (t : String) (vecs : List (List PyFloat))
    (emb : List PyFloat)
    (hload : env.load MODEL_NAME = Except.ok m)
    (harg : env.argv[1]? = some t)
    (henc : m.encode [t] = Except.ok vecs)
    (hget : vecs[0]? = some emb)
    (hnf : emb.all PyFloat.isFinite = false) :
    (∃ e : String, json_dumps emb = Except.error e) ∧
    (runScript env).exitOk = false ∧ (runScript env).stdout = "" ∧
    (runScript env).error.isSome = true := by
  have hd : json_dumps emb = Except.error
      "ValueError: Out of range float values are not JSON compliant" := by
    simp [json_dumps, hnf]
  refine ⟨⟨_, hd⟩, ?_, ?_, ?_⟩ <;>
    simp [runScript, hload, harg, henc, hget, hd]

/-- C6 witness: the theorem applied to a concrete run whose model returns
the vector `[nan]`. -/
theorem c6_witness :
    (∃ e : String, json_dumps [PyFloat.nan] = Except.error e) ∧
    (runScript c6Env).exitOk = false ∧ (runScript c6Env).stdout = "" ∧
    (runScript c6Env).error.isSome = true :=
  c6_nonfinite_serialization_failure c6Env nanModel "hi" [[PyFloat.nan]]
    [PyFloat.nan] rfl rfl rfl rfl rfl

/-- C7: determinism: two runs with identical model behaviour (same model
and version) and the identical first positional argument produce the
identical run result — in particular numerically identical printed
vectors; the script introduces no nondeterminism beyond the model. -/
theorem c7_deterministic (e₁ e₂ : Env) (hm : e₁.load = e₂.load)
    (ha : e₁.argv[1]? = e₂.argv[1]?) : runScript e₁ = runScript e₂ :=
  runScript_congr e₁ e₂ hm ha

/-- C7 witness: two concrete runs sharing the model behaviour and the
input text "same text" produce the identical result. -/
theorem c7_witness : runScript c7EnvA = runScript c7EnvB :=
  c7_deterministic c7EnvA c7EnvB rfl rfl

/-- C8: the script reads only the first positional argument: two runs
with the same model behaviour that agree on `argv[1]` — regardless of any
additional arguments — write identical standard output. -/
theorem c8_extra_arguments_ignored (e₁ e₂ : Env) (hm : e₁.load = e₂.load)
    (ha : e₁.argv[1]? = e₂.argv[1]?) :
    (runScript e₁).stdout = (runScript e₂).stdout := by
  rw [runScript_congr e₁ e₂ hm ha]

/-- C8 witness: a concrete run on "hello" and the same run with two extra
trailing arguments write identical standard output. -/
theorem c8_witness : (runScript c8EnvA).stdout = (runScript c8EnvB).stdout :=
  c8_extra_arguments_ignored c8EnvA c8EnvB rfl rfl

/-- C9: for the empty string supplied as the first positional argument,
assuming the model accepts empty text (encode succeeds with a
384-dimensional vector of finite entries), the script does not crash —
it exits with status 0 — and still prints a JSON array of 384 numbers. -/
theorem c9_empty_string_still_vector (env : Env) (m : SentenceTransformer)
    (emb : List PyFloat) (rest : List (List PyFloat))
    (hload : env.load MODEL_NAME = Except.ok m)
    (harg : env.argv[1]? = some "")
    (henc : m.encode [""] = Except.ok (emb :: rest))
    (hdim : emb.length = 384)
    (hfin : emb.all PyFloat.isFinite = true) :
    (runScript env).exitOk = true ∧
    ∃ line : String, (runScript env).stdout = line ++ "\n" ∧
      ParsesToNumArray line 384 := by
  rw [runScript_success env m "" (emb :: rest) emb hload harg henc (by simp) hfin]
  exact ⟨rfl, String.mk (arrChars (emb.map PyFloat.val)), rfl,
    emb.map PyFloat.val, by rw [List.length_map, hdim], rfl⟩

set_option maxRecDepth 4000 in
/-- C9 witness: the theorem applied to a concrete run with `argv[1] = ""`
and a model that returns a 384-dimensional zero vector. -/
theorem c9_witness :
    (runScript c9Env).exitOk = true ∧
    ∃ line : String, (runScript c9Env).stdout = line ++ "\n" ∧
      ParsesToNumArray line 384 :=
  c9_empty_string_still_vector c9Env zeroModel384
    (List.replicate 384 (PyFloat.finite 0)) [] rfl rfl rfl (by simp) (by rfl)

/-- C10: under the preconditions that at least one positional argument is
supplied and that `encode` applied to the one-element sequence returns a
one-element sequence of vectors, the `[0]` index on the encode result is
in bounds and neither index-error branch of the embedded program (the
`sys.argv[1]` access of line 6, the `[0]` indexing of line 7) is
reached. -/
theorem c10_index_zero_in_bounds (env : Env) (m : SentenceTransformer)
    (t : String) (vecs : List (List PyFloat))
    (hload : env.load MODEL_NAME = Except.ok m)
    (harg : env.argv[1]? = some t)
    (henc : m.encode [t] = Except.ok vecs)
    (hlen : vecs.length = 1) :
    (∃ emb, vecs[0]? = some emb) ∧
    (runScript env).error ≠ some argvIndexError ∧
    (runScript env).error ≠ some encodeIndexError := by
  obtain ⟨emb, rest, rfl⟩ : ∃ x xs, vecs = x :: xs := by
    cases vecs with
    | nil => simp at hlen
    | cons a l => exact ⟨a, l, rfl⟩
  have hget : (emb :: rest)[0]? = some emb := by simp
  refine ⟨⟨emb, hget⟩, ?_, ?_⟩ <;>
  · rcases hd : json_dumps emb with e | s
    · have herr : (runScript env).error = some e := by
        simp [runScript, hload, harg, henc, hget, hd]
      have he : e =
          "ValueError: Out of range float values are not JSON compliant" := by
        unfold json_dumps at hd
        split at hd
        · exact absurd hd (by simp)
        · injection hd with h
          exact h.symm
      rw [herr, he]
      decide
    · have herr : (runScript env).error = none := by
        simp [runScript, hload, harg, henc, hget, hd]
      simp [herr]

/-- C10 witness: the theorem applied to a concrete run whose model
returns exactly one vector. -/
theorem c10_witness :
    (∃ emb, [[PyFloat.finite 1]][0]? = some emb) ∧
    (runScript c10Env).error ≠ some argvIndexError ∧
    (runScript c10Env).error ≠ some encodeIndexError :=
  c10_index_zero_in_bounds c10Env tinyModel "hi" [[PyFloat.finite 1]]
    rfl rfl rfl rfl
